import Mathlib

/-!
# Verification of the wavesurfer.js orchestrator (`src/wavesurfer.ts`)

A shallow embedding of the `WaveSurfer` class from `src/wavesurfer.ts`
(wavesurfer.js v7.0.0-beta.15).  The orchestrator composes a media player,
a renderer, a timer, a fetcher and a decoder; only the orchestrator itself
is in the repository, so the collaborators appear here as abstract actions
recorded in traces, and JavaScript numbers are modelled by an explicit
inductive type carrying `undefined`, `NaN`, `Infinity` and finite rationals.
-/

/-- A JavaScript number as it can appear in the duration plumbing of
`wavesurfer.ts`: `undefined` (an absent optional argument), `NaN`
(an unknown media duration), `Infinity` (a streaming media duration),
or a finite value, modelled as a rational. -/
inductive JSNum where
  | undef : JSNum
  | nan : JSNum
  | inf : JSNum
  | num : ℚ → JSNum
  deriving DecidableEq, Repr

namespace JSNum

/-- JavaScript truthiness for the values of `JSNum`:
`undefined`, `NaN` and `0` are falsy; `Infinity` and every nonzero
finite number are truthy. -/
def truthy : JSNum → Bool
  | undef => false
  | nan => false
  | inf => true
  | num q => !(q == 0)

/-- JavaScript strict equality `===` restricted to numbers (and
`undefined`): `NaN === NaN` is false, everything else compares
structurally. -/
def jsEq : JSNum → JSNum → Bool
  | nan, _ => false
  | _, nan => false
  | undef, undef => true
  | inf, inf => true
  | num a, num b => a == b
  | _, _ => false

/-- The JavaScript short-circuiting `a || b` on numbers: returns `a`
when `a` is truthy, otherwise `b`. -/
def jsOr (a b : JSNum) : JSNum := if a.truthy then a else b

end JSNum

open JSNum

/-- The environment of one successful call to
`WaveSurfer.load(url, channelData?, duration?)`: the arguments together
with the values the collaborators report during this call. -/
structure LoadEnv where
  /-- `this.isPlaying()` at entry. -/
  isPlaying : Bool
  /-- The `url` argument. -/
  url : String
  /-- Whether the `channelData` (pre-decoded peaks) argument is truthy. -/
  hasPeaks : Bool
  /-- The `duration` argument; `undef` when absent. -/
  explicitDur : JSNum
  /-- The duration the media element reports when `this.getDuration()` is
  read during duration resolution (`this.duration` is `null` there, so the
  override falls back to the player). -/
  mediaDur : JSNum
  /-- The duration the media element reports after its one-shot
  `loadedmetadata` event. -/
  metaDur : JSNum
  /-- `decodedData.duration` of the decode result (used only when no
  peaks were supplied). -/
  decodedDur : JSNum

namespace LoadEnv

/-- Whether a blob exists after the fetch step: `wavesurfer.ts` line 301,
`const blob = channelData ? undefined : await Fetcher.fetchBlob(...)`.
On a successful load the fetch returned a blob, so a blob is present
exactly when no peaks were supplied. -/
def hasBlob (env : LoadEnv) : Bool := !env.hasPeaks

/-- The duration resolution chain of `wavesurfer.ts` lines 307–313:
`duration || this.getDuration() || (await loadedmetadata … getDuration()) || 0`. -/
def resolvedDur (env : LoadEnv) : JSNum :=
  jsOr env.explicitDur (jsOr env.mediaDur (jsOr env.metaDur (num 0)))

/-- Whether the decode-time correction of lines 323–325 fires:
only in the `else if (blob)` branch, when the resolved duration is
strictly equal to `0` or to `Infinity`. -/
def corrects (env : LoadEnv) : Bool :=
  env.hasBlob && (jsEq env.resolvedDur (num 0) || jsEq env.resolvedDur inf)

/-- The duration held in `this.duration` after the decode step
(lines 307–326): the resolved duration, corrected to the decoded data's
own duration when a decode occurred and the resolved value was 0 or
Infinity. -/
def finalDur (env : LoadEnv) : JSNum :=
  if env.corrects then env.decodedDur else env.resolvedDur

end LoadEnv

/-- How `this.decodedData` was produced: from caller-supplied peaks via
`Decoder.createBuffer`, or from fetched bytes via `Decoder.decode`. -/
inductive DecodedSource where
  | fromPeaks : DecodedSource
  | fromDecode : DecodedSource
  deriving DecidableEq, Repr

/-- One observable step of `WaveSurfer.load`, in direct correspondence
with the statements of `wavesurfer.ts` lines 292–336. -/
inductive WSAction where
  /-- `this.pause()` (line 293). -/
  | pauseA : WSAction
  /-- `this.decodedData = null` (line 295). -/
  | clearDecoded : WSAction
  /-- `this.duration = null` (line 296). -/
  | clearDuration : WSAction
  /-- `this.emit('load', url)` (line 298). -/
  | emitLoad : String → WSAction
  /-- `await Fetcher.fetchBlob(url, …)` (line 301). -/
  | fetchA : String → WSAction
  /-- `this.setSrc(url, blob)` (line 304). -/
  | setSrcA : String → WSAction
  /-- Suspension on the one-shot `loadedmetadata` media event (lines 310–312). -/
  | awaitMeta : WSAction
  /-- An assignment to `this.duration` (line 307 or line 324). -/
  | setDuration : JSNum → WSAction
  /-- `await Decoder.decode(arrayBuffer, sampleRate)` (line 320). -/
  | decodeA : WSAction
  /-- An assignment to `this.decodedData` (line 317 or line 320). -/
  | setDecoded : DecodedSource → WSAction
  /-- `this.emit('decode', this.duration)` (line 328). -/
  | emitDecode : JSNum → WSAction
  /-- `this.renderer.render(this.decodedData)` (line 332). -/
  | renderA : WSAction
  /-- `this.emit('ready', this.duration)` (line 335). -/
  | emitReady : JSNum → WSAction
  /-- `this.renderer.zoom(minPxPerSec)` (line 343). -/
  | rendererZoomA : ℚ → WSAction
  /-- `this.emit('zoom', minPxPerSec)` (line 344). -/
  | emitZoom : ℚ → WSAction
  deriving DecidableEq, Repr

/-- The straight-line trace of one successful `WaveSurfer.load` call
(`wavesurfer.ts` lines 292–336), each conditional taken exactly as the
source takes it in the environment `env`. -/
def loadActions (env : LoadEnv) : List WSAction :=
  (if env.isPlaying then [WSAction.pauseA] else [])
    ++ [WSAction.clearDecoded, WSAction.clearDuration, WSAction.emitLoad env.url]
    ++ (if env.hasPeaks then [] else [WSAction.fetchA env.url])
    ++ [WSAction.setSrcA env.url]
    ++ (if env.explicitDur.truthy || env.mediaDur.truthy then []
        else [WSAction.awaitMeta])
    ++ [WSAction.setDuration env.resolvedDur]
    ++ (if env.hasPeaks then [WSAction.setDecoded DecodedSource.fromPeaks]
        else if env.hasBlob then
          [WSAction.decodeA, WSAction.setDecoded DecodedSource.fromDecode]
            ++ (if jsEq env.resolvedDur (num 0) || jsEq env.resolvedDur inf
                then [WSAction.setDuration env.decodedDur] else [])
        else [])
    ++ [WSAction.emitDecode env.finalDur]
    ++ (if env.hasPeaks || env.hasBlob then [WSAction.renderA] else [])
    ++ [WSAction.emitReady env.finalDur]

/-- The mutable fields of the `WaveSurfer` instance that the load
pipeline touches. -/
structure WSState where
  decodedData : Option DecodedSource
  duration : Option JSNum
  deriving DecidableEq, Repr

/-- The effect of one action on the instance fields. -/
def applyAction (s : WSState) : WSAction → WSState
  | WSAction.clearDecoded => { s with decodedData := none }
  | WSAction.clearDuration => { s with duration := none }
  | WSAction.setDuration d => { s with duration := some d }
  | WSAction.setDecoded src => { s with decodedData := some src }
  | _ => s

/-- Run a trace from a state. -/
def runActions (s : WSState) (t : List WSAction) : WSState :=
  t.foldl applyAction s

/-! ## Claim C1: duration resolution priority -/

/-- The duration-resolution rule as the spec would have it once amended:
the explicit argument is used only when it is truthy (provided and neither
zero nor `NaN`); an explicit `0` falls through to the media player's
currently-reported duration, then to the post-`loadedmetadata` duration,
then to `0`. -/
def specResolveDuration (explicitD mediaD metaD : JSNum) : JSNum :=
  if explicitD.truthy then explicitD
  else if mediaD.truthy then mediaD
  else if metaD.truthy then metaD
  else num 0

/-- C1 counterexample: with `explicitDuration = 0` (provided, non-null)
and a media-reported duration of `5`, the code resolves the duration to
`5`, not to the explicit `0` — the `duration || …` chain treats `0` as
falsy, so clause (a) of the claim does not fire for an explicit `0`. -/
theorem C1_explicit_zero_counterexample :
    LoadEnv.resolvedDur
        { isPlaying := false, url := "a.mp3", hasPeaks := false,
          explicitDur := num 0, mediaDur := num 5,
          metaDur := nan, decodedDur := num 7 } = num 5 ∧
      (num 5 : JSNum) ≠ num 0 := by
  constructor
  · rfl
  · decide

/-- C1 (amended): the resolved duration follows the priority chain
(a) the `explicitDuration` argument if provided and truthy (non-zero,
non-`NaN`); (b) otherwise the media player's currently-reported duration
if truthy; (c) otherwise the duration reported after the one-shot
`loadedmetadata` signal if truthy; (d) otherwise `0` — and the
`loadedmetadata` suspension happens exactly when neither (a) nor (b)
yielded a usable value. -/
theorem C1_duration_resolution (env : LoadEnv) :
    env.resolvedDur
        = specResolveDuration env.explicitDur env.mediaDur env.metaDur ∧
      (WSAction.awaitMeta ∈ loadActions env ↔
        (env.explicitDur.truthy = false ∧ env.mediaDur.truthy = false)) := by
  constructor
  · simp only [LoadEnv.resolvedDur, specResolveDuration, jsOr]
  · cases hE : env.explicitDur.truthy <;> cases hM : env.mediaDur.truthy <;>
      simp only [loadActions] <;> split_ifs <;> simp_all

/-! ## Claim C2: decode-time duration correction -/

/-- C2: after a full `load` run, the stored duration is: the resolved
duration when peaks were supplied (no correction step); otherwise — a
decode occurred — the decoded data's own duration when the resolved
duration was strictly `0` or `Infinity`, and the resolved duration
unchanged in every other case. -/
theorem C2_decode_duration_correction (env : LoadEnv) (s₀ : WSState) :
    (runActions s₀ (loadActions env)).duration =
      some (if env.hasPeaks then env.resolvedDur
            else if jsEq env.resolvedDur (num 0) || jsEq env.resolvedDur inf
              then env.decodedDur
              else env.resolvedDur) := by
  simp only [loadActions, runActions, LoadEnv.hasBlob, LoadEnv.finalDur,
    LoadEnv.corrects]
  split_ifs <;> simp_all [List.foldl_append, applyAction]

/-! ## Claim C3: lifecycle event order within one load -/

/-- The three lifecycle events of one `load` call. -/
def isLifecycleEmit : WSAction → Bool
  | WSAction.emitLoad _ => true
  | WSAction.emitDecode _ => true
  | WSAction.emitReady _ => true
  | _ => false

/-- C3: in every successful `load` call, the lifecycle events emitted are
exactly `load(url)`, then `decode(duration)`, then `ready(duration)`, in
that order — `decode` never precedes `load` and `ready` never precedes
`decode`. -/
theorem C3_lifecycle_event_order (env : LoadEnv) :
    (loadActions env).filter isLifecycleEmit
      = [WSAction.emitLoad env.url, WSAction.emitDecode env.finalDur,
         WSAction.emitReady env.finalDur] := by
  simp only [loadActions]
  split_ifs <;> simp [isLifecycleEmit]

/-! ## Claim C4: state reset precedes all work; decodedData stays null -/

/-- Recognizes `this.decodedData = null` (line 295). -/
def isClearDecoded : WSAction → Bool
  | WSAction.clearDecoded => true
  | _ => false

/-- Recognizes `this.duration = null` (line 296). -/
def isClearDuration : WSAction → Bool
  | WSAction.clearDuration => true
  | _ => false

/-- Recognizes every fetch, source-binding, duration-resolution, or
decode step of the pipeline, together with the `load` event emission. -/
def isWorkStep : WSAction → Bool
  | WSAction.emitLoad _ => true
  | WSAction.fetchA _ => true
  | WSAction.setSrcA _ => true
  | WSAction.awaitMeta => true
  | WSAction.setDuration _ => true
  | WSAction.decodeA => true
  | WSAction.setDecoded _ => true
  | _ => false

/-- Recognizes an assignment to `this.decodedData` (peaks construction
at line 317 or decode completion at line 320). -/
def isSetDecoded : WSAction → Bool
  | WSAction.setDecoded _ => true
  | _ => false

/-- Checks, stepping a state through the trace, that `decodedData` is
`null` at the moment every action runs — the initial pause and the reset
assignments themselves excepted — until the first assignment to
`decodedData`, after which the check stops. -/
def decodedNullUntilSet (s : WSState) : List WSAction → Bool
  | [] => true
  | WSAction.pauseA :: rest =>
      decodedNullUntilSet (applyAction s WSAction.pauseA) rest
  | WSAction.clearDecoded :: rest =>
      decodedNullUntilSet (applyAction s WSAction.clearDecoded) rest
  | WSAction.clearDuration :: rest =>
      decodedNullUntilSet (applyAction s WSAction.clearDuration) rest
  | WSAction.setDecoded _ :: _ => true
  | a :: rest =>
      (s.decodedData == none) && decodedNullUntilSet (applyAction s a) rest

/-- C4: in every `load` call, the reset of `decodedData` and of
`duration` both happen strictly before the `load` emission and before
every fetch, source-binding, duration-resolution and decode step;
`decodedData` is still `null` whenever any of those steps runs, up to
the single assignment that sets it — and that assignment (peaks
construction or decode completion) occurs exactly once. -/
theorem C4_reset_before_work (env : LoadEnv) (s₀ : WSState) :
    (loadActions env).findIdx isClearDecoded
        < (loadActions env).findIdx isWorkStep ∧
      (loadActions env).findIdx isClearDuration
        < (loadActions env).findIdx isWorkStep ∧
      decodedNullUntilSet s₀ (loadActions env) = true ∧
      (loadActions env).countP isSetDecoded = 1 := by
  simp only [loadActions, LoadEnv.hasBlob]
  split_ifs <;>
    simp_all [List.findIdx_cons, decodedNullUntilSet, applyAction,
      List.countP_cons, isClearDecoded, isClearDuration, isWorkStep,
      isSetDecoded]

/-! ## Claim C5: zoom requires decoded data -/

/-- The body of `WaveSurfer.zoom(minPxPerSec)` (`wavesurfer.ts` lines
339–345): when `this.decodedData` is null the method throws
`'No audio loaded'` before doing anything else, so no action is
performed; otherwise it forwards the factor to the renderer and then
emits `zoom`.  The result pairs the actions performed with the thrown
error message, if any. -/
def zoomImpl (decodedData : Option DecodedSource) (minPxPerSec : ℚ) :
    List WSAction × Option String :=
  if decodedData.isNone then ([], some "No audio loaded")
  else ([WSAction.rendererZoomA minPxPerSec, WSAction.emitZoom minPxPerSec],
    none)

/-- C5: `zoom` with no decoded data fails with the NothingLoaded error
and performs no action (in particular emits no `zoom` event); with
decoded data present it forwards `minPxPerSec` to the renderer and emits
`zoom(minPxPerSec)`; in neither case does it invoke the decoder. -/
theorem C5_zoom_requires_decoded (d : Option DecodedSource) (m : ℚ) :
    (d = none → zoomImpl d m = ([], some "No audio loaded")) ∧
      (∀ x, d = some x →
        zoomImpl d m
          = ([WSAction.rendererZoomA m, WSAction.emitZoom m], none)) ∧
      WSAction.decodeA ∉ (zoomImpl d m).1 := by
  refine ⟨fun h => by simp [zoomImpl, h], fun x h => by simp [zoomImpl, h], ?_⟩
  cases d <;> simp [zoomImpl]

/-- C5 witness: at `decodedData = null` the zoom call fails as stated,
and at concrete decoded data it succeeds as stated. -/
theorem C5_zoom_requires_decoded_witness :
    zoomImpl none 3 = ([], some "No audio loaded") ∧
      zoomImpl (some DecodedSource.fromPeaks) 3
        = ([WSAction.rendererZoomA 3, WSAction.emitZoom 3], none) :=
  ⟨(C5_zoom_requires_decoded none 3).1 rfl,
    (C5_zoom_requires_decoded (some DecodedSource.fromPeaks) 3).2.1
      DecodedSource.fromPeaks rfl⟩

/-! ## Claim C6: plugin registration and one-shot self-removal -/

/-- A call of the orchestrator into a plugin. -/
inductive PluginCall where
  /-- `plugin.init(this)` (line 263). -/
  | initCall : ℕ → PluginCall
  /-- `plugin.destroy()` (line 393). -/
  | destroyCall : ℕ → PluginCall
  deriving DecidableEq, Repr

/-- The plugin registry: the `plugins` array and, for each
`registerPlugin` call, the `once('destroy', …)` subscription it pushed,
as the pair (plugin identity, handler still armed). -/
structure RegState where
  plugins : List ℕ
  subs : List (ℕ × Bool)
  deriving DecidableEq, Repr

/-- `WaveSurfer.registerPlugin` (lines 262–274): calls `plugin.init(this)`,
pushes the plugin onto `this.plugins`, subscribes once to the plugin's
`destroy` signal, and returns the plugin itself.  The result is
(returned plugin, new registry state, calls made into the plugin). -/
def registerPlugin (s : RegState) (p : ℕ) : ℕ × RegState × List PluginCall :=
  (p,
    { plugins := s.plugins ++ [p], subs := s.subs ++ [(p, true)] },
    [PluginCall.initCall p])

/-- Modelled from the spec: the EventBus `once` semantics (spec §4.2 —
the EventBus implementation is not under `src/`): "`once(event, handler)`
auto-releases after first invocation", so a plugin's destroy signal runs
its registered handler the first time it fires and finds no armed
handler afterwards.  The handler body is `wavesurfer.ts` line 269:
`this.plugins = this.plugins.filter((p) => p !== plugin)`. -/
def fireDestroySignal (s : RegState) (i : ℕ) : RegState :=
  match s.subs[i]? with
  | some (p, true) =>
      { plugins := s.plugins.filter (fun q => q != p),
        subs := s.subs.set i (p, false) }
  | _ => s

/-- C6: `registerPlugin(P)` invokes `P.init` with the orchestrator as
host, appends `P` to the active plugins, and returns `P`; firing `P`'s
destroy signal removes `P` from the active plugins (exactly once — the
removal is a `filter`, so `P` is gone afterwards), and a second firing
of the signal is a no-op leaving the registry unchanged. -/
theorem C6_register_plugin_once_destroy (s : RegState) (p : ℕ) :
    (registerPlugin s p).1 = p ∧
      (registerPlugin s p).2.2 = [PluginCall.initCall p] ∧
      (registerPlugin s p).2.1.plugins = s.plugins ++ [p] ∧
      p ∉ (fireDestroySignal (registerPlugin s p).2.1 s.subs.length).plugins ∧
      (fireDestroySignal (registerPlugin s p).2.1 s.subs.length).plugins
        = ((registerPlugin s p).2.1.plugins).filter (fun q => q != p) ∧
      fireDestroySignal
          (fireDestroySignal (registerPlugin s p).2.1 s.subs.length)
          s.subs.length
        = fireDestroySignal (registerPlugin s p).2.1 s.subs.length := by
  refine ⟨rfl, rfl, rfl, ?_, ?_, ?_⟩
  · simp [registerPlugin, fireDestroySignal, List.getElem?_concat_length,
      List.mem_filter]
  · simp [registerPlugin, fireDestroySignal, List.getElem?_concat_length]
  · simp only [registerPlugin, fireDestroySignal, List.getElem?_concat_length]
    have hset : ((s.subs ++ [(p, true)]).set s.subs.length (p, false))[s.subs.length]?
        = some (p, false) := by
      rw [List.getElem?_set_self']
      simp [List.getElem?_concat_length]
    simp [hset]

/-! ## Claim C7: destroy teardown order -/

/-- One step of `WaveSurfer.destroy()` (`wavesurfer.ts` lines 391–398). -/
inductive DestroyStep where
  /-- `this.emit('destroy')` (line 392). -/
  | emitDestroy : DestroyStep
  /-- `plugin.destroy()` for one registered plugin (line 393). -/
  | destroyPlugin : ℕ → DestroyStep
  /-- `unsubscribe()` for one held subscription (line 394). -/
  | unsub : ℕ → DestroyStep
  /-- `this.timer.destroy()` (line 395). -/
  | timerDestroy : DestroyStep
  /-- `this.renderer.destroy()` (line 396). -/
  | rendererDestroy : DestroyStep
  /-- `super.destroy()` — the underlying media player (line 397). -/
  | playerDestroy : DestroyStep
  deriving DecidableEq, Repr

/-- The trace of `WaveSurfer.destroy()` over the registered plugins `ps`
and `n` held subscriptions, straight from lines 391–398. -/
def destroyTrace (ps : List ℕ) (n : ℕ) : List DestroyStep :=
  [DestroyStep.emitDestroy]
    ++ ps.map DestroyStep.destroyPlugin
    ++ (List.range n).map DestroyStep.unsub
    ++ [DestroyStep.timerDestroy, DestroyStep.rendererDestroy,
        DestroyStep.playerDestroy]

/-- The teardown phase a step belongs to, in the order the claim
requires: emit, plugins, subscriptions, timer, renderer, player. -/
def destroyPhase : DestroyStep → ℕ
  | DestroyStep.emitDestroy => 0
  | DestroyStep.destroyPlugin _ => 1
  | DestroyStep.unsub _ => 2
  | DestroyStep.timerDestroy => 3
  | DestroyStep.rendererDestroy => 4
  | DestroyStep.playerDestroy => 5

/-- Whether the phases along a trace never decrease, starting from the
lower bound `k`. -/
def phasesMonotone (k : ℕ) : List DestroyStep → Bool
  | [] => true
  | a :: rest => (k ≤ destroyPhase a : Bool) && phasesMonotone (destroyPhase a) rest

/-- Recognizes a subscription release. -/
def isUnsub : DestroyStep → Bool
  | DestroyStep.unsub _ => true
  | _ => false

theorem phasesMonotone_of_le (k k' : ℕ) (t : List DestroyStep) (hk : k' ≤ k)
    (h : phasesMonotone k t = true) : phasesMonotone k' t = true := by
  cases t with
  | nil => rfl
  | cons a rest =>
    simp only [phasesMonotone, Bool.and_eq_true, decide_eq_true_eq] at h ⊢
    exact ⟨le_trans hk h.1, h.2⟩

theorem phasesMonotone_plugin_block (l : List ℕ) (rest : List DestroyStep)
    (h : phasesMonotone 1 rest = true) :
    phasesMonotone 1 (l.map DestroyStep.destroyPlugin ++ rest) = true := by
  induction l with
  | nil => simpa using h
  | cons p l ih =>
    simp only [List.map_cons, List.cons_append, phasesMonotone, destroyPhase,
      Bool.and_eq_true, decide_eq_true_eq]
    exact ⟨le_refl 1, ih⟩

theorem phasesMonotone_unsub_block (l : List ℕ) (rest : List DestroyStep)
    (h : phasesMonotone 2 rest = true) :
    phasesMonotone 2 (l.map DestroyStep.unsub ++ rest) = true := by
  induction l with
  | nil => simpa using h
  | cons i l ih =>
    simp only [List.map_cons, List.cons_append, phasesMonotone, destroyPhase,
      Bool.and_eq_true, decide_eq_true_eq]
    exact ⟨le_refl 2, ih⟩

/-- C7: `destroy()` emits the `destroy` event as its very first step —
before any plugin, subscription, timer, renderer, or player teardown, so
a `destroy` listener still observes the registry intact — and then the
teardown phases follow in the exact order plugins → subscriptions →
timer → renderer → player, never interleaving backwards; every
registered plugin is destroyed, every one of the `n` subscriptions is
released, and the timer, the renderer and the media player are each
destroyed. -/
theorem C7_destroy_order (ps : List ℕ) (n : ℕ) :
    (destroyTrace ps n).head? = some DestroyStep.emitDestroy ∧
      phasesMonotone 0 (destroyTrace ps n) = true ∧
      (∀ p ∈ ps, DestroyStep.destroyPlugin p ∈ destroyTrace ps n) ∧
      (destroyTrace ps n).countP isUnsub = n ∧
      DestroyStep.timerDestroy ∈ destroyTrace ps n ∧
      DestroyStep.rendererDestroy ∈ destroyTrace ps n ∧
      DestroyStep.playerDestroy ∈ destroyTrace ps n := by
  refine ⟨rfl, ?_, ?_, ?_, ?_, ?_, ?_⟩
  · have h3 : phasesMonotone 2
        ([DestroyStep.timerDestroy, DestroyStep.rendererDestroy,
          DestroyStep.playerDestroy] : List DestroyStep) = true := by decide
    have h2 : phasesMonotone 2
        ((List.range n).map DestroyStep.unsub
          ++ [DestroyStep.timerDestroy, DestroyStep.rendererDestroy,
              DestroyStep.playerDestroy]) = true :=
      phasesMonotone_unsub_block _ _ h3
    have h1 : phasesMonotone 1
        (ps.map DestroyStep.destroyPlugin
          ++ ((List.range n).map DestroyStep.unsub
            ++ [DestroyStep.timerDestroy, DestroyStep.rendererDestroy,
                DestroyStep.playerDestroy])) = true :=
      phasesMonotone_plugin_block _ _
        (phasesMonotone_of_le 2 1 _ (by omega) h2)
    have h0 := phasesMonotone_of_le 1 0 _ (Nat.zero_le 1) h1
    simpa [destroyTrace, phasesMonotone, destroyPhase] using h0
  · intro p hp
    have hm : DestroyStep.destroyPlugin p ∈ ps.map DestroyStep.destroyPlugin :=
      List.mem_map_of_mem _ hp
    simp only [destroyTrace, List.mem_append]
    tauto
  · have e1 : (isUnsub ∘ DestroyStep.destroyPlugin) = fun _ : ℕ => false := rfl
    have e2 : (isUnsub ∘ DestroyStep.unsub) = fun _ : ℕ => true := rfl
    simp [destroyTrace, List.countP_append, List.countP_map, e1, e2, isUnsub]
  · simp [destroyTrace]
  · simp [destroyTrace]
  · simp [destroyTrace]

/-- C7 witness: the ordering theorem instantiated at two plugins and two
subscriptions, with every plugin-membership hypothesis discharged
concretely. -/
theorem C7_destroy_order_witness :
    DestroyStep.destroyPlugin 4 ∈ destroyTrace [4, 9] 2 ∧
      (destroyTrace [4, 9] 2).head? = some DestroyStep.emitDestroy :=
  ⟨(C7_destroy_order [4, 9] 2).2.2.1 4 (by decide), (C7_destroy_order [4, 9] 2).1⟩

/-! ## Claim C8: setOptions shallow merge and audioRate reapplication -/

/-- A JavaScript value held in an options object: `undefined`, a number,
or some other (non-numeric) value, opaque to the orchestrator. -/
inductive JSVal where
  | undefV : JSVal
  | numV : ℚ → JSVal
  | otherV : ℕ → JSVal
  deriving DecidableEq, Repr

/-- JavaScript truthiness of an option value; the orchestrator only ever
branches on the `audioRate` option, which is numeric or absent. -/
def truthyV : JSVal → Bool
  | JSVal.undefV => false
  | JSVal.numV q => !(q == 0)
  | JSVal.otherV _ => true

/-- `Object.assign({}, this.options, options)` (`wavesurfer.ts`
line 156): per key, the partial's value when the key is present in the
partial — even when that value is `undefined` — and the current value
otherwise.  A partial is a map from key to `Option JSVal`, `none`
meaning the key is absent. -/
def mergeOptions (cur : String → JSVal) (part : String → Option JSVal) :
    String → JSVal :=
  fun k =>
    match part k with
    | some v => v
    | none => cur k

/-- An externally visible action of `setOptions`. -/
inductive SetOptsAction where
  /-- `this.renderer.setOptions(this.options)` (line 157), carrying the
  merged configuration's value at each key. -/
  | rendererSetOptions : SetOptsAction
  /-- `this.setPlaybackRate(options.audioRate)` (line 160). -/
  | setPlaybackRate : JSVal → SetOptsAction
  deriving DecidableEq, Repr

/-- `WaveSurfer.setOptions` (lines 155–162): shallow-merge the partial
over the current configuration, forward the merged configuration to the
renderer, and — only when the partial's `audioRate` is truthy — apply it
as the playback rate. -/
def setOptionsImpl (cur : String → JSVal) (part : String → Option JSVal) :
    (String → JSVal) × List SetOptsAction :=
  (mergeOptions cur part,
    [SetOptsAction.rendererSetOptions]
      ++ (match part "audioRate" with
          | some v => if truthyV v then [SetOptsAction.setPlaybackRate v] else []
          | none => []))

/-- The current configuration of the C8 counterexample: `audioRate` is 1. -/
def c8Cur : String → JSVal := fun k =>
  if k = "audioRate" then JSVal.numV 1 else JSVal.undefV

/-- The partial of the C8 counterexample: it sets `audioRate` to 0. -/
def c8Part : String → Option JSVal := fun k =>
  if k = "audioRate" then some (JSVal.numV 0) else none

/-- C8 counterexample: `setOptions({audioRate: 0})` over a configuration
whose `audioRate` is 1 *changes* `audioRate` in the merged configuration,
yet performs no `setPlaybackRate` call — the code guards the call with
the JavaScript truthiness of `options.audioRate` (line 159), not with
whether the value changed. -/
theorem C8_audioRate_zero_counterexample :
    (setOptionsImpl c8Cur c8Part).1 "audioRate" = JSVal.numV 0 ∧
      c8Cur "audioRate" = JSVal.numV 1 ∧
      (setOptionsImpl c8Cur c8Part).2 = [SetOptsAction.rendererSetOptions] := by
  refine ⟨?_, ?_, ?_⟩ <;> rfl

/-- C8 (amended): `setOptions(partial)` produces the shallow merge of
the partial over the current configuration (keys present in the partial
replace the current values, every other key keeps its value), forwards
the merged configuration to the renderer, and applies the partial's
`audioRate` as the playback rate exactly when that entry is present and
truthy (non-zero, non-`NaN`, not `undefined`) — regardless of whether it
differs from the current value. -/
theorem C8_set_options (cur : String → JSVal) (part : String → Option JSVal) :
    (∀ k v, part k = some v → (setOptionsImpl cur part).1 k = v) ∧
      (∀ k, part k = none → (setOptionsImpl cur part).1 k = cur k) ∧
      SetOptsAction.rendererSetOptions ∈ (setOptionsImpl cur part).2 ∧
      (∀ v, part "audioRate" = some v → truthyV v = true →
        (setOptionsImpl cur part).2
          = [SetOptsAction.rendererSetOptions, SetOptsAction.setPlaybackRate v]) ∧
      (∀ v, part "audioRate" = some v → truthyV v = false →
        (setOptionsImpl cur part).2 = [SetOptsAction.rendererSetOptions]) ∧
      (part "audioRate" = none →
        (setOptionsImpl cur part).2 = [SetOptsAction.rendererSetOptions]) := by
  refine ⟨fun k v h => ?_, fun k h => ?_, ?_, fun v h ht => ?_, fun v h ht => ?_,
    fun h => ?_⟩ <;>
    simp_all [setOptionsImpl, mergeOptions]

/-- C8 amended-claim witness: a partial with a truthy `audioRate` of 2
over the counterexample configuration replaces the key, reaches the
renderer, and applies the playback rate. -/
theorem C8_set_options_witness :
    (setOptionsImpl c8Cur (fun k =>
        if k = "audioRate" then some (JSVal.numV 2) else none)).1 "audioRate"
        = JSVal.numV 2 ∧
      (setOptionsImpl c8Cur (fun k =>
        if k = "audioRate" then some (JSVal.numV 2) else none)).2
        = [SetOptsAction.rendererSetOptions,
           SetOptsAction.setPlaybackRate (JSVal.numV 2)] :=
  ⟨(C8_set_options c8Cur _).1 "audioRate" (JSVal.numV 2) (by simp),
    (C8_set_options c8Cur _).2.2.2.1 (JSVal.numV 2) (by simp) (by decide)⟩

/-! ## Claim C9: constructor auto-load -/

/-- The source-related fields of a supplied media element. -/
structure MediaEl where
  currentSrc : String
  src : String
  deriving DecidableEq, Repr

/-- The constructor options the auto-load decision reads
(`wavesurfer.ts` lines 149–152): the `url` option, the optional media
element, and the `peaks`/`duration` options forwarded to `load`.  Peaks
are carried opaquely. -/
structure CtorOpts where
  url : Option String
  media : Option MediaEl
  peaks : Option ℕ
  durationOpt : JSNum
  deriving DecidableEq, Repr

/-- JavaScript truthiness of a string: only the empty string is falsy. -/
def strTruthy (s : String) : Bool := !(s == "")

/-- Truthiness of an optional-chaining string result (`undefined` when
the receiver is absent). -/
def jsStrTruthy : Option String → Bool
  | none => false
  | some s => strTruthy s

/-- The JavaScript `a || b` on optional strings. -/
def jsOrS (a b : Option String) : Option String := if jsStrTruthy a then a else b

/-- Line 149: `this.options.url || this.options.media?.currentSrc ||
this.options.media?.src`. -/
def ctorUrlExpr (o : CtorOpts) : Option String :=
  jsOrS o.url (jsOrS (o.media.map MediaEl.currentSrc) (o.media.map MediaEl.src))

/-- Lines 150–152: `if (url) { this.load(url, this.options.peaks,
this.options.duration) }` — the load call the constructor issues, if
any, with its three arguments. -/
def ctorLoadCall (o : CtorOpts) : Option (String × Option ℕ × JSNum) :=
  match ctorUrlExpr o with
  | some u => if strTruthy u then some (u, o.peaks, o.durationOpt) else none
  | none => none

/-- C9: constructing with a non-empty `url` option initiates a load with
that url and the constructor's `peaks` and `duration` options; with no
usable `url` option but a media element whose `currentSrc` is non-empty,
the load uses `currentSrc` (and failing that a non-empty `src`);
constructing with no url and no media element initiates no load; and any
load the constructor initiates carries a non-empty url. -/
theorem C9_constructor_autoload (o : CtorOpts) :
    (∀ u, o.url = some u → strTruthy u = true →
        ctorLoadCall o = some (u, o.peaks, o.durationOpt)) ∧
      (∀ m, o.media = some m → jsStrTruthy o.url = false →
        strTruthy m.currentSrc = true →
        ctorLoadCall o = some (m.currentSrc, o.peaks, o.durationOpt)) ∧
      (∀ m, o.media = some m → jsStrTruthy o.url = false →
        strTruthy m.currentSrc = false → strTruthy m.src = true →
        ctorLoadCall o = some (m.src, o.peaks, o.durationOpt)) ∧
      (o.media = none → jsStrTruthy o.url = false → ctorLoadCall o = none) ∧
      (∀ r, ctorLoadCall o = some r → strTruthy r.1 = true) := by
  refine ⟨fun u hu ht => ?_, fun m hm hu ht => ?_, fun m hm hu hc ht => ?_,
    fun hm hu => ?_, fun r hr => ?_⟩
  · simp [ctorLoadCall, ctorUrlExpr, jsOrS, jsStrTruthy, hu, ht]
  · cases ho : o.url with
    | none => simp_all [ctorLoadCall, ctorUrlExpr, jsOrS, jsStrTruthy]
    | some u => simp_all [ctorLoadCall, ctorUrlExpr, jsOrS, jsStrTruthy]
  · cases ho : o.url with
    | none => simp_all [ctorLoadCall, ctorUrlExpr, jsOrS, jsStrTruthy]
    | some u => simp_all [ctorLoadCall, ctorUrlExpr, jsOrS, jsStrTruthy]
  · cases ho : o.url with
    | none => simp_all [ctorLoadCall, ctorUrlExpr, jsOrS, jsStrTruthy]
    | some u => simp_all [ctorLoadCall, ctorUrlExpr, jsOrS, jsStrTruthy]
  · simp only [ctorLoadCall] at hr
    rcases he : ctorUrlExpr o with _ | u
    · simp [he] at hr
    · simp only [he] at hr
      rcases ht : strTruthy u with _ | _
      · simp [ht] at hr
      · simp only [ht, if_true] at hr
        cases hr
        simpa using ht

/-- Witness options: a url with no media element. -/
def c9UrlOnly : CtorOpts :=
  { url := some "a.mp3", media := none, peaks := some 1, durationOpt := num 7 }

/-- Witness options: neither url nor media element. -/
def c9Nothing : CtorOpts :=
  { url := none, media := none, peaks := none, durationOpt := undef }

/-- Witness media element with a currentSrc. -/
def c9Media : MediaEl := { currentSrc := "b.mp3", src := "c.mp3" }

/-- Witness options: no url but a media element with a currentSrc. -/
def c9MediaOnly : CtorOpts :=
  { url := none, media := some c9Media, peaks := none, durationOpt := undef }

/-- C9 witness: a constructor whose options carry url `"a.mp3"` loads it
with the options' peaks and duration; one with no url and no media
element loads nothing; a media-element `currentSrc` is picked up when the
url option is absent. -/
theorem C9_constructor_autoload_witness :
    ctorLoadCall c9UrlOnly = some ("a.mp3", some 1, num 7) ∧
      ctorLoadCall c9Nothing = none ∧
      ctorLoadCall c9MediaOnly = some ("b.mp3", none, undef) :=
  ⟨(C9_constructor_autoload c9UrlOnly).1 "a.mp3" rfl (by decide),
    (C9_constructor_autoload c9Nothing).2.2.2.1 rfl (by decide),
    (C9_constructor_autoload c9MediaOnly).2.1 c9Media rfl (by decide)
      (by decide)⟩

/-! ## Claim C10: toggleInteraction gates click and drag handling -/

/-- The slice of the instance options the interaction handlers read. -/
structure InteractState where
  interact : Bool
  deriving DecidableEq, Repr

/-- `WaveSurfer.toggleInteraction` (lines 359–361):
`this.options.interact = isInteractive`. -/
def toggleInteraction (s : InteractState) (isInteractive : Bool) : InteractState :=
  { s with interact := isInteractive }

/-- An action a renderer-interaction handler may perform. -/
inductive UIAction where
  /-- `this.seekTo(relativeX)` (line 209). -/
  | seekToA : ℚ → UIAction
  /-- `this.emit('interaction', …)` (line 210 or 246). -/
  | emitInteraction : JSNum → UIAction
  /-- `this.emit('click', relativeX)` (line 211). -/
  | emitClick : ℚ → UIAction
  /-- `this.renderer.renderProgress(relativeX)` (line 235). -/
  | renderProgressA : ℚ → UIAction
  /-- `clearTimeout(debounce)` (line 238). -/
  | clearDebounce : UIAction
  /-- `debounce = setTimeout(() => this.seekTo(relativeX), delay)`
  (lines 239–244): schedules the seek commit after `delay` ms. -/
  | scheduleSeek : ℚ → ℕ → UIAction
  /-- `this.emit('drag', relativeX)` (line 247). -/
  | emitDrag : ℚ → UIAction
  deriving DecidableEq, Repr

/-- The renderer `click` handler (lines 207–213): everything is guarded
by `this.options.interact`.  `curTime` is `this.getCurrentTime()` as
read for the `interaction` payload. -/
def clickHandler (s : InteractState) (relativeX : ℚ) (curTime : JSNum) :
    List UIAction :=
  if s.interact then
    [UIAction.seekToA relativeX, UIAction.emitInteraction curTime,
     UIAction.emitClick relativeX]
  else []

/-- The renderer `drag` handler (lines 231–248): returns immediately
when `this.options.interact` is false; otherwise updates the visual
progress, re-arms the debounced seek commit (delay 0 when playing,
200 ms when paused), and emits `interaction` and `drag`. -/
def dragHandler (s : InteractState) (relativeX : ℚ) (isPlaying : Bool)
    (duration : ℚ) : List UIAction :=
  if !s.interact then []
  else
    [UIAction.renderProgressA relativeX, UIAction.clearDebounce,
     UIAction.scheduleSeek relativeX (if isPlaying then 0 else 200),
     UIAction.emitInteraction (num (relativeX * duration)),
     UIAction.emitDrag relativeX]

/-- C10: after `toggleInteraction(false)`, the click handler and the
drag handler both perform no action at all — no seek, no visual progress
update, no scheduled seek commit, and no `interaction`/`click`/`drag`
emission; after `toggleInteraction(true)`, both handlers perform their
full action sequences. -/
theorem C10_toggle_interaction (s : InteractState) (x : ℚ) (t : JSNum)
    (p : Bool) (d : ℚ) :
    clickHandler (toggleInteraction s false) x t = [] ∧
      dragHandler (toggleInteraction s false) x p d = [] ∧
      clickHandler (toggleInteraction s true) x t
        = [UIAction.seekToA x, UIAction.emitInteraction t, UIAction.emitClick x] ∧
      dragHandler (toggleInteraction s true) x p d
        = [UIAction.renderProgressA x, UIAction.clearDebounce,
           UIAction.scheduleSeek x (if p then 0 else 200),
           UIAction.emitInteraction (num (x * d)), UIAction.emitDrag x] := by
  refine ⟨rfl, rfl, rfl, rfl⟩
